import Mathlib

/-!
Verification of the real-time rendering and camera-control core of the
balintkissdev/3d-renderer application: the fixed-timestep game loop
(src/app.cpp, App::run), the renderer draw-call state machine
(src/renderer.cpp, Renderer::drawModel / Renderer::drawSkybox), the
startup/error-handling path (src/main.cpp, App::init), and the camera
orientation math (Camera, modelled from the design spec where the camera
source file is not part of the provided sources).

Machine floating-point values are modelled as exact rationals (the
accumulator arithmetic) or exact reals (the 3D vector and matrix math).
-/

namespace Renderer3D

/-! ## Fixed-timestep accumulator (src/app.cpp)

`constexpr float MAX_LOGIC_UPDATE_PER_SECOND = 60.0F;`
`constexpr float FIXED_UPDATE_TIMESTEP = 1.0F / MAX_LOGIC_UPDATE_PER_SECOND;`

Each iteration of App::run adds the elapsed wall time to `lag` and then
drains: `while (lag >= FIXED_UPDATE_TIMESTEP) { lag -= FIXED_UPDATE_TIMESTEP; }`.
-/

def MAX_LOGIC_UPDATE_PER_SECOND : ℚ := 60

def FIXED_UPDATE_TIMESTEP : ℚ := 1 / MAX_LOGIC_UPDATE_PER_SECOND

/-- The drain loop of App::run:
`while (lag >= FIXED_UPDATE_TIMESTEP) { lag -= FIXED_UPDATE_TIMESTEP; }`. -/
def drainLag (lag : ℚ) : ℚ :=
  if FIXED_UPDATE_TIMESTEP ≤ lag then drainLag (lag - FIXED_UPDATE_TIMESTEP) else lag
termination_by (⌈lag * 60⌉).toNat
decreasing_by
  have h60 : (1 : ℚ) ≤ lag * 60 := by
    have : (1 : ℚ) / 60 ≤ lag := by
      simpa [FIXED_UPDATE_TIMESTEP, MAX_LOGIC_UPDATE_PER_SECOND] using ‹FIXED_UPDATE_TIMESTEP ≤ lag›
    linarith
  have hrw : (lag - FIXED_UPDATE_TIMESTEP) * 60 = lag * 60 - 1 := by
    simp [FIXED_UPDATE_TIMESTEP, MAX_LOGIC_UPDATE_PER_SECOND]
    ring
  have hceil : ⌈(lag - FIXED_UPDATE_TIMESTEP) * 60⌉ = ⌈lag * 60⌉ - 1 := by
    rw [hrw]
    exact_mod_cast Int.ceil_sub_one (lag * 60)
  have hpos : 1 ≤ ⌈lag * 60⌉ := by
    calc (1 : ℤ) = ⌈(1 : ℚ)⌉ := by simp
    _ ≤ ⌈lag * 60⌉ := Int.ceil_le_ceil h60
  rw [hceil]
  omega

/-- One iteration of the accumulator part of App::run: the elapsed wall
time is added to `lag`, then the drain loop runs. -/
def loopLag (lag : ℚ) (elapsed : ℚ) : ℚ :=
  drainLag (lag + elapsed)

/-- The accumulator value after running the main loop over a whole
sequence of per-iteration elapsed wall times, starting from
`float lag = 0.0F;`. -/
def runLoopLag (elapsedTimes : List ℚ) : ℚ :=
  elapsedTimes.foldl loopLag 0

/-! ## 3D vector / matrix / quaternion math (glm, as used by the sources)

Machine floats are modelled as exact reals. Matrices are written here in
row/column notation: field mRC is row R, column C. glm stores matrices
column-major, so the glm expression Result[c][r] is field m(r)(c) here. -/

structure Vec3 where
  x : ℝ
  y : ℝ
  z : ℝ

def Vec3.add (a b : Vec3) : Vec3 := ⟨a.x + b.x, a.y + b.y, a.z + b.z⟩

def Vec3.sub (a b : Vec3) : Vec3 := ⟨a.x - b.x, a.y - b.y, a.z - b.z⟩

def Vec3.smul (k : ℝ) (v : Vec3) : Vec3 := ⟨k * v.x, k * v.y, k * v.z⟩

/-- glm dot(a, b). -/
def Vec3.dot (a b : Vec3) : ℝ := a.x * b.x + a.y * b.y + a.z * b.z

/-- glm cross(a, b). -/
def Vec3.cross (a b : Vec3) : Vec3 :=
  ⟨a.y * b.z - a.z * b.y, a.z * b.x - a.x * b.z, a.x * b.y - a.y * b.x⟩

/-- glm normalize(v): v scaled by the inverse of its length. -/
noncomputable def Vec3.normalize (v : Vec3) : Vec3 :=
  Vec3.smul (1 / Real.sqrt (v.dot v)) v

/-- glm radians(degrees). -/
noncomputable def radians (degrees : ℝ) : ℝ := degrees * (Real.pi / 180)

structure Mat3 where
  m00 : ℝ
  m01 : ℝ
  m02 : ℝ
  m10 : ℝ
  m11 : ℝ
  m12 : ℝ
  m20 : ℝ
  m21 : ℝ
  m22 : ℝ

structure Mat4 where
  m00 : ℝ
  m01 : ℝ
  m02 : ℝ
  m03 : ℝ
  m10 : ℝ
  m11 : ℝ
  m12 : ℝ
  m13 : ℝ
  m20 : ℝ
  m21 : ℝ
  m22 : ℝ
  m23 : ℝ
  m30 : ℝ
  m31 : ℝ
  m32 : ℝ
  m33 : ℝ

/-- Matrix product of two 4x4 matrices (glm operator*). -/
def Mat4.mul (a b : Mat4) : Mat4 where
  m00 := a.m00 * b.m00 + a.m01 * b.m10 + a.m02 * b.m20 + a.m03 * b.m30
  m01 := a.m00 * b.m01 + a.m01 * b.m11 + a.m02 * b.m21 + a.m03 * b.m31
  m02 := a.m00 * b.m02 + a.m01 * b.m12 + a.m02 * b.m22 + a.m03 * b.m32
  m03 := a.m00 * b.m03 + a.m01 * b.m13 + a.m02 * b.m23 + a.m03 * b.m33
  m10 := a.m10 * b.m00 + a.m11 * b.m10 + a.m12 * b.m20 + a.m13 * b.m30
  m11 := a.m10 * b.m01 + a.m11 * b.m11 + a.m12 * b.m21 + a.m13 * b.m31
  m12 := a.m10 * b.m02 + a.m11 * b.m12 + a.m12 * b.m22 + a.m13 * b.m32
  m13 := a.m10 * b.m03 + a.m11 * b.m13 + a.m12 * b.m23 + a.m13 * b.m33
  m20 := a.m20 * b.m00 + a.m21 * b.m10 + a.m22 * b.m20 + a.m23 * b.m30
  m21 := a.m20 * b.m01 + a.m21 * b.m11 + a.m22 * b.m21 + a.m23 * b.m31
  m22 := a.m20 * b.m02 + a.m21 * b.m12 + a.m22 * b.m22 + a.m23 * b.m32
  m23 := a.m20 * b.m03 + a.m21 * b.m13 + a.m22 * b.m23 + a.m23 * b.m33
  m30 := a.m30 * b.m00 + a.m31 * b.m10 + a.m32 * b.m20 + a.m33 * b.m30
  m31 := a.m30 * b.m01 + a.m31 * b.m11 + a.m32 * b.m21 + a.m33 * b.m31
  m32 := a.m30 * b.m02 + a.m31 * b.m12 + a.m32 * b.m22 + a.m33 * b.m32
  m33 := a.m30 * b.m03 + a.m31 * b.m13 + a.m32 * b.m23 + a.m33 * b.m33

/-- glm mat3(m): the upper-left 3x3 block of a 4x4 matrix. -/
def Mat4.toMat3 (m : Mat4) : Mat3 where
  m00 := m.m00
  m01 := m.m01
  m02 := m.m02
  m10 := m.m10
  m11 := m.m11
  m12 := m.m12
  m20 := m.m20
  m21 := m.m21
  m22 := m.m22

/-- glm mat4(m3): a 3x3 matrix extended with a zero translation column,
zero bottom row and 1 in the corner. -/
def Mat3.toMat4 (m : Mat3) : Mat4 where
  m00 := m.m00
  m01 := m.m01
  m02 := m.m02
  m03 := 0
  m10 := m.m10
  m11 := m.m11
  m12 := m.m12
  m13 := 0
  m20 := m.m20
  m21 := m.m21
  m22 := m.m22
  m23 := 0
  m30 := 0
  m31 := 0
  m32 := 0
  m33 := 1

/-- glm quaternion, components (w, x, y, z). -/
structure Quat where
  w : ℝ
  x : ℝ
  y : ℝ
  z : ℝ

/-- glm quaternion product (Hamilton product, operator* on glm::quat). -/
def Quat.mul (p q : Quat) : Quat where
  w := p.w * q.w - p.x * q.x - p.y * q.y - p.z * q.z
  x := p.w * q.x + p.x * q.w + p.y * q.z - p.z * q.y
  y := p.w * q.y + p.y * q.w + p.z * q.x - p.x * q.z
  z := p.w * q.z + p.z * q.w + p.x * q.y - p.y * q.x

/-- glm angleAxis(angle, axis): rotation quaternion from an angle in
radians and a (unit) axis. -/
noncomputable def angleAxis (angle : ℝ) (axis : Vec3) : Quat where
  w := Real.cos (angle / 2)
  x := Real.sin (angle / 2) * axis.x
  y := Real.sin (angle / 2) * axis.y
  z := Real.sin (angle / 2) * axis.z

/-- glm mat3_cast(q): the rotation matrix of a quaternion
(glm Result[c][r] is written here as field m(r)(c)). -/
def mat3_cast (q : Quat) : Mat3 where
  m00 := 1 - 2 * (q.y * q.y + q.z * q.z)
  m10 := 2 * (q.x * q.y + q.w * q.z)
  m20 := 2 * (q.x * q.z - q.w * q.y)
  m01 := 2 * (q.x * q.y - q.w * q.z)
  m11 := 1 - 2 * (q.x * q.x + q.z * q.z)
  m21 := 2 * (q.y * q.z + q.w * q.x)
  m02 := 2 * (q.x * q.z + q.w * q.y)
  m12 := 2 * (q.y * q.z - q.w * q.x)
  m22 := 1 - 2 * (q.x * q.x + q.y * q.y)

/-- glm mat4_cast(q): the rotation matrix of a quaternion as a 4x4
homogeneous matrix. -/
def mat4_cast (q : Quat) : Mat4 := (mat3_cast q).toMat4

/-- glm lookAtRH(eye, center, up). -/
noncomputable def lookAt (eye center up : Vec3) : Mat4 :=
  let f := (center.sub eye).normalize
  let s := (f.cross up).normalize
  let u := s.cross f
  { m00 := s.x, m01 := s.y, m02 := s.z, m03 := -(s.dot eye)
    m10 := u.x, m11 := u.y, m12 := u.z, m13 := -(u.dot eye)
    m20 := -f.x, m21 := -f.y, m22 := -f.z, m23 := f.dot eye
    m30 := 0, m31 := 0, m32 := 0, m33 := 1 }

/-- glm perspective(fovy, aspect, zNear, zFar), right-handed. -/
noncomputable def perspective (fovy aspect zNear zFar : ℝ) : Mat4 :=
  let tanHalfFovy := Real.tan (fovy / 2)
  { m00 := 1 / (aspect * tanHalfFovy), m01 := 0, m02 := 0, m03 := 0
    m10 := 0, m11 := 1 / tanHalfFovy, m12 := 0, m13 := 0
    m20 := 0, m21 := 0, m22 := -(zFar + zNear) / (zFar - zNear)
    m23 := -(2 * zFar * zNear) / (zFar - zNear)
    m30 := 0, m31 := 0, m32 := -1, m33 := 0 }

/-! ## Camera

Modelled from the spec: the Camera source file is not among the provided
sources (only its callers in src/app.cpp and src/renderer.cpp are).
Spec 3 / 4.1: position plus yaw and pitch in degrees; the orthonormal
front/right/up basis is recomputed from yaw/pitch whenever they change
(standard spherical-to-Cartesian conversion, then cross products with the
world up vector, all normalized); look scales the offsets by a fixed
sensitivity constant, adds to yaw/pitch and clamps pitch to an open
interval strictly inside (-90, 90) degrees; movement translates the
position along front/right/world-up scaled by a fixed speed and dt;
calculateViewMatrix is lookAt(position, position + front, up). -/

/-- Modelled from the spec: the fixed mouselook sensitivity constant
(spec 4.1 gives no numeric value). -/
noncomputable def CAMERA_LOOK_SENSITIVITY : ℝ := 1 / 10

/-- Modelled from the spec: the fixed movement speed constant
(spec 4.1 gives no numeric value). -/
noncomputable def CAMERA_SPEED : ℝ := 5 / 2

/-- Modelled from the spec: the pitch clamp bound, a value strictly
inside (-90, 90) degrees (spec 4.1 gives no numeric value). -/
def CAMERA_PITCH_LIMIT : ℝ := 89

def WORLD_UP : Vec3 := ⟨0, 1, 0⟩

/-- Modelled from the spec: camera state. The derived basis vectors are
functions of yaw/pitch below, modelling that they are recomputed whenever
yaw/pitch change. -/
structure Camera where
  position : Vec3
  yaw : ℝ
  pitch : ℝ

/-- The spherical-to-Cartesian front vector derived from yaw/pitch
(normalized). -/
noncomputable def Camera.front (c : Camera) : Vec3 :=
  (Vec3.normalize
    ⟨Real.cos (radians c.yaw) * Real.cos (radians c.pitch),
     Real.sin (radians c.pitch),
     Real.sin (radians c.yaw) * Real.cos (radians c.pitch)⟩)

/-- The derived right vector: normalize(cross(front, worldUp)). -/
noncomputable def Camera.right (c : Camera) : Vec3 :=
  (c.front.cross WORLD_UP).normalize

/-- The derived up vector: normalize(cross(right, front)). -/
noncomputable def Camera.up (c : Camera) : Vec3 :=
  (c.right.cross c.front).normalize

/-- Modelled from the spec: look(xOffset, yOffset) scales by the
sensitivity, adds to yaw/pitch, and clamps pitch strictly inside
(-90, 90) degrees. -/
noncomputable def Camera.look (c : Camera) (xOffset yOffset : ℝ) : Camera :=
  { c with
    yaw := c.yaw + xOffset * CAMERA_LOOK_SENSITIVITY
    pitch :=
      min CAMERA_PITCH_LIMIT
        (max (-CAMERA_PITCH_LIMIT) (c.pitch + yOffset * CAMERA_LOOK_SENSITIVITY)) }

noncomputable def Camera.moveForward (c : Camera) (dt : ℝ) : Camera :=
  { c with position := c.position.add (Vec3.smul (CAMERA_SPEED * dt) c.front) }

noncomputable def Camera.moveBackward (c : Camera) (dt : ℝ) : Camera :=
  { c with position := c.position.sub (Vec3.smul (CAMERA_SPEED * dt) c.front) }

noncomputable def Camera.strafeLeft (c : Camera) (dt : ℝ) : Camera :=
  { c with position := c.position.sub (Vec3.smul (CAMERA_SPEED * dt) c.right) }

noncomputable def Camera.strafeRight (c : Camera) (dt : ℝ) : Camera :=
  { c with position := c.position.add (Vec3.smul (CAMERA_SPEED * dt) c.right) }

noncomputable def Camera.ascend (c : Camera) (dt : ℝ) : Camera :=
  { c with position := c.position.add (Vec3.smul (CAMERA_SPEED * dt) WORLD_UP) }

noncomputable def Camera.descend (c : Camera) (dt : ℝ) : Camera :=
  { c with position := c.position.sub (Vec3.smul (CAMERA_SPEED * dt) WORLD_UP) }

/-- Modelled from the spec: a look-at transform from position toward
position + front, using up as the reference up vector. -/
noncomputable def Camera.calculateViewMatrix (c : Camera) : Mat4 :=
  lookAt c.position (c.position.add c.front) c.up

/-- A sequence of look(xOffset, yOffset) calls applied in order. -/
noncomputable def applyLooks (c : Camera) (offsets : List (ℝ × ℝ)) : Camera :=
  offsets.foldl (fun cam o => cam.look o.1 o.2) c

/-! ## Draw properties and drawable entities

DrawProperties fields are taken from their uses in src/app.cpp and
src/renderer.cpp (the defining header is not among the provided sources):
backgroundColor, modelColor, modelRotation (Euler degrees, x/y/z),
fov, lightDirection, the diffuse/specular/wireframe/skybox toggles, and
selectedModelIndex. -/

structure DrawProperties where
  backgroundColor : Vec3
  modelColor : Vec3
  modelRotation : Vec3
  fov : ℝ
  lightDirection : Vec3
  diffuseEnabled : Bool
  specularEnabled : Bool
  wireframeModeEnabled : Bool
  skyboxEnabled : Bool
  selectedModelIndex : Nat

/-- A loaded model as the renderer sees it: its GPU vertex-array handle
and the element count of its index buffer (model.indices.size()). -/
structure Model where
  vertexArray : Nat
  indexCount : Nat
deriving DecidableEq

/-- A built skybox as the renderer sees it: its GPU vertex-array handle
and its cubemap texture handle. -/
structure Skybox where
  vertexArray : Nat
  textureID : Nat
deriving DecidableEq

/-! ## GPU state machine (src/renderer.cpp)

The GPU state observable by the draw calls of this program: depth
comparison function, polygon fill mode, bound vertex array, active
program, bound cubemap texture, and the uniform stores of the two shader
programs. Draw calls are recorded with a snapshot of the state they are
issued under. -/

inductive DepthFunc where
  | less
  | lequal
deriving DecidableEq

inductive PolygonMode where
  | fill
  | line
deriving DecidableEq

inductive ShaderId where
  | modelShader
  | skyboxShader
deriving DecidableEq

/-- Uniforms uploaded by Renderer::drawModel to the model shading
program, including the fragment-stage subroutine selection. -/
structure ModelUniforms where
  model : Mat4
  mvp : Mat4
  normalMatrix : Mat3
  color : Vec3
  lightDirection : Vec3
  viewPos : Vec3
  fragmentSubroutines : List String

/-- Uniforms uploaded by Renderer::drawSkybox to the skybox program. -/
structure SkyboxUniforms where
  projectionView : Mat4
  skyboxTexture : Int

structure GLState where
  depthFunc : DepthFunc
  polygonMode : PolygonMode
  boundVertexArray : Nat
  activeProgram : Option ShaderId
  boundCubemapTexture : Nat
  modelUniforms : ModelUniforms
  skyboxUniforms : SkyboxUniforms

/-- One recorded glDrawElements call, with the snapshot of the GPU state
it was issued under. -/
structure DrawCall where
  program : Option ShaderId
  vertexArray : Nat
  indexCount : Nat
  mode : PolygonMode
  depthFunc : DepthFunc

/-- The 4x4 matrix as a Mathlib matrix, row index first. -/
def Mat4.toMatrix (m : Mat4) : Matrix (Fin 4) (Fin 4) ℝ :=
  !![m.m00, m.m01, m.m02, m.m03;
     m.m10, m.m11, m.m12, m.m13;
     m.m20, m.m21, m.m22, m.m23;
     m.m30, m.m31, m.m32, m.m33]

def matrixToMat4 (a : Matrix (Fin 4) (Fin 4) ℝ) : Mat4 where
  m00 := a 0 0
  m01 := a 0 1
  m02 := a 0 2
  m03 := a 0 3
  m10 := a 1 0
  m11 := a 1 1
  m12 := a 1 2
  m13 := a 1 3
  m20 := a 2 0
  m21 := a 2 1
  m22 := a 2 2
  m23 := a 2 3
  m30 := a 3 0
  m31 := a 3 1
  m32 := a 3 2
  m33 := a 3 3

/-- glm inverse(m): adjugate over determinant, which over exact reals is
the Mathlib nonsingular inverse (Ring.inverse det • adjugate). -/
noncomputable def Mat4.inverse (m : Mat4) : Mat4 :=
  matrixToMat4 m.toMatrix⁻¹

/-- glm transpose(m). -/
def Mat4.transpose (m : Mat4) : Mat4 where
  m00 := m.m00
  m01 := m.m10
  m02 := m.m20
  m03 := m.m30
  m10 := m.m01
  m11 := m.m11
  m12 := m.m21
  m13 := m.m31
  m20 := m.m02
  m21 := m.m12
  m22 := m.m22
  m23 := m.m32
  m30 := m.m03
  m31 := m.m13
  m32 := m.m23
  m33 := m.m33

/-- The normal matrix computed by Renderer::drawModel:
mat3(transpose(inverse(modelMatrix))). -/
noncomputable def normalMatrixOf (model : Mat4) : Mat3 :=
  model.inverse.transpose.toMat3

/-- The model transform computed by Renderer::drawModel: per-axis Euler
angles (degrees) converted to axis-angle quaternions about X, Y, Z, then
composed as quatZ * quatY * quatX and cast to a matrix. -/
noncomputable def modelQuat (modelRotation : Vec3) : Quat :=
  let quatX := angleAxis (radians modelRotation.x) ⟨1, 0, 0⟩
  let quatY := angleAxis (radians modelRotation.y) ⟨0, 1, 0⟩
  let quatZ := angleAxis (radians modelRotation.z) ⟨0, 0, 1⟩
  (quatZ.mul quatY).mul quatX

noncomputable def modelTransform (modelRotation : Vec3) : Mat4 :=
  mat4_cast (modelQuat modelRotation)

/-- Renderer::drawModel (desktop GL4 path of src/renderer.cpp): activate
the model program, bind the vertex array, compute the model / mvp /
normal matrices, upload the uniforms, select the fragment subroutines,
set the polygon mode from the wireframe toggle, issue one indexed draw,
then restore fill mode and unbind the vertex array. -/
noncomputable def drawModel (drawProps : DrawProperties) (projection : Mat4)
    (camera : Camera) (model : Model) (s : GLState) : GLState × List DrawCall :=
  let s1 := { s with activeProgram := some ShaderId.modelShader }
  let s2 := { s1 with boundVertexArray := model.vertexArray }
  let modelMatrix := modelTransform drawProps.modelRotation
  let view := camera.calculateViewMatrix
  let mvp := (projection.mul view).mul modelMatrix
  let normalMatrix := normalMatrixOf modelMatrix
  let s3 := { s2 with
    modelUniforms :=
      { model := modelMatrix
        mvp := mvp
        normalMatrix := normalMatrix
        color := drawProps.modelColor
        lightDirection := drawProps.lightDirection
        viewPos := camera.position
        fragmentSubroutines :=
          [if drawProps.diffuseEnabled then "DiffuseEnabled" else "Disabled",
           if drawProps.specularEnabled then "SpecularEnabled" else "Disabled"] } }
  let s4 := { s3 with
    polygonMode :=
      if drawProps.wireframeModeEnabled then PolygonMode.line else PolygonMode.fill }
  let call : DrawCall :=
    { program := s4.activeProgram
      vertexArray := s4.boundVertexArray
      indexCount := model.indexCount
      mode := s4.polygonMode
      depthFunc := s4.depthFunc }
  let s5 := { s4 with polygonMode := PolygonMode.fill }
  let s6 := { s5 with boundVertexArray := 0 }
  (s6, [call])

/-- Renderer::drawSkybox (src/renderer.cpp): relax the depth function to
less-or-equal, activate the skybox program, bind the skybox vertex array
and cubemap texture, upload the projection-view matrix with the view
translation stripped (mat4(mat3(view))) and the texture unit, issue one
36-index draw, then unbind the vertex array and restore the strict
less-than depth function. -/
noncomputable def drawSkybox (projection : Mat4) (camera : Camera)
    (skybox : Skybox) (s : GLState) : GLState × List DrawCall :=
  let s1 := { s with depthFunc := DepthFunc.lequal }
  let s2 := { s1 with activeProgram := some ShaderId.skyboxShader }
  let s3 := { s2 with boundVertexArray := skybox.vertexArray }
  let s4 := { s3 with boundCubemapTexture := skybox.textureID }
  let normalizedView := camera.calculateViewMatrix.toMat3.toMat4
  let projectionView := projection.mul normalizedView
  let s5 := { s4 with
    skyboxUniforms := { projectionView := projectionView, skyboxTexture := 0 } }
  let call : DrawCall :=
    { program := s5.activeProgram
      vertexArray := s5.boundVertexArray
      indexCount := 36
      mode := s5.polygonMode
      depthFunc := s5.depthFunc }
  let s6 := { s5 with boundVertexArray := 0 }
  let s7 := { s6 with depthFunc := DepthFunc.less }
  (s7, [call])

/-! ## Startup and error handling (src/main.cpp, App::init in src/app.cpp)

The fallible external collaborators (windowing system, extension loader,
asset loader, skybox builder) are modelled as an environment record; the
init sequence itself is the code of App::init. -/

def gpuRequirementsMessage : String :=
  "Graphics card needs to support at least OpenGL 4.3"

def modelPaths : List String :=
  ["assets/meshes/cube.obj", "assets/meshes/teapot.obj", "assets/meshes/bunny.obj"]

/-- Outcomes of the external calls App::init makes, in program order. -/
structure InitEnv where
  glfwInitOk : Bool
  createWindowOk : Bool
  gladLoadOk : Bool
  skyboxBuild : Option Skybox
  modelLoad : String → Option Model

/-- The model-loading loop of App::init: load each path in order, abort
with an error message at the first failure. -/
def loadModels (env : InitEnv) : List String → Option (List Model) × List String
  | [] => (some [], [])
  | p :: rest =>
    match env.modelLoad p with
    | none => (none, ["unable to create model from path " ++ p])
    | some m =>
      match loadModels env rest with
      | (none, msgs) => (none, msgs)
      | (some ms, msgs) => (some (m :: ms), msgs)

/-- App::init: windowing-system init, window creation, GPU extension
loading, skybox build and model loading, in order, each failure reported
with a human-readable message and aborting init immediately. Returns the
loaded collections on success and the emitted error messages. -/
def appInit (env : InitEnv) : Option (List Model × Skybox) × List String :=
  if !env.glfwInitOk then
    (none, ["unable to initialize windowing system. " ++ gpuRequirementsMessage])
  else if !env.createWindowOk then
    (none, ["unable to create window. " ++ gpuRequirementsMessage])
  else if !env.gladLoadOk then
    (none, ["unable to load OpenGL extensions. " ++ gpuRequirementsMessage])
  else
    match env.skyboxBuild with
    | none => (none, ["unable to create skybox for application"])
    | some sky =>
      match loadModels env modelPaths with
      | (none, msgs) => (none, msgs)
      | (some ms, _) => (some (ms, sky), [])

/-- main (src/main.cpp): EXIT_FAILURE (1) without entering the main loop
when App::init fails, otherwise run the loop and exit EXIT_SUCCESS (0).
First component: the process exit code; second component: whether
App::run (the main loop) is entered. -/
def appMain (env : InitEnv) : Nat × Bool :=
  match (appInit env).1 with
  | none => (1, false)
  | some _ => (0, true)

/-! ## Input handling and the main loop (App::run, App::handleInput,
App::mouseCursorCallback in src/app.cpp) -/

def SCREEN_WIDTH : Nat := 1024

def SCREEN_HEIGHT : Nat := 768

/-- The fixed timestep as a real number, the dt App::handleInput passes
to every camera movement call. -/
noncomputable def fixedUpdateTimestepReal : ℝ := 1 / 60

/-- Pressed-state of the keys App::handleInput polls. -/
structure KeysPressed where
  escape : Bool
  keyW : Bool
  keyS : Bool
  keyA : Bool
  keyD : Bool
  space : Bool
  leftCtrl : Bool

/-- App::handleInput: Escape sets the window close flag; each held
movement key applies the corresponding camera move with the fixed
timestep as dt. Returns the updated camera and close flag. -/
noncomputable def handleInput (keys : KeysPressed) (camera : Camera)
    (shouldClose : Bool) : Camera × Bool :=
  let close := shouldClose || keys.escape
  let c1 := if keys.keyW then camera.moveForward fixedUpdateTimestepReal else camera
  let c2 := if keys.keyS then c1.moveBackward fixedUpdateTimestepReal else c1
  let c3 := if keys.keyA then c2.strafeLeft fixedUpdateTimestepReal else c2
  let c4 := if keys.keyD then c3.strafeRight fixedUpdateTimestepReal else c3
  let c5 := if keys.space then c4.ascend fixedUpdateTimestepReal else c4
  let c6 := if keys.leftCtrl then c5.descend fixedUpdateTimestepReal else c5
  (c6, close)

structure Vec2 where
  x : ℝ
  y : ℝ

/-- The window-associated callback data of App (src/app.cpp): the camera
reference and the last observed mouse position. -/
structure WindowCallbackData where
  camera : Camera
  lastMousePos : Vec2

/-- App::mouseCursorCallback: with the right mouse button released, only
record the cursor position (avoiding a look jump when mouselook next
starts); with it pressed, call Camera::look with the x delta and the
negated y delta since the previous event and record the position. The
second component records the Camera::look invocation (its offsets), if
any, made by this callback. -/
noncomputable def mouseCursorCallback (rightMouseButtonPressed : Bool)
    (currentMousePos : Vec2) (d : WindowCallbackData) :
    WindowCallbackData × Option (ℝ × ℝ) :=
  if rightMouseButtonPressed = false then
    ({ d with lastMousePos := currentMousePos }, none)
  else
    let xOffset := currentMousePos.x - d.lastMousePos.x
    let yOffset := d.lastMousePos.y - currentMousePos.y
    ({ camera := d.camera.look xOffset yOffset, lastMousePos := currentMousePos },
      some (xOffset, yOffset))

/-- Per-iteration external input to App::run: the polled key states, the
DrawProperties as returned by the GUI overlay this frame (spec 3: the
overlay overwrites them wholesale each frame), and whether the windowing
system delivered a close request during event polling. -/
structure FrameInput where
  keys : KeysPressed
  guiProps : DrawProperties
  closeRequested : Bool

/-- The state App::run threads through loop iterations. The fixed-
timestep accumulator is modelled separately (runLoopLag): its drain loop
has an empty body and touches nothing else in this state. -/
structure AppState where
  camera : Camera
  models : List Model
  skybox : Skybox
  gl : GLState
  shouldClose : Bool

/-- One iteration of the body of App::run: handle input, take the GUI-
updated DrawProperties, select the active model by selectedModelIndex
(out-of-range indexing is undefined behavior in the C++; the embedding
totalizes it with a default), compute the projection from the fov and the
fixed framebuffer size, draw the active model and, if enabled, the
skybox, then poll events (which can deliver a close request). Returns the
new state and the draw calls the iteration issued. -/
noncomputable def appFrame (inp : FrameInput) (s : AppState) :
    AppState × List DrawCall :=
  let (camera, close) := handleInput inp.keys s.camera s.shouldClose
  let drawProps := inp.guiProps
  let activeModel := s.models.getD drawProps.selectedModelIndex ⟨0, 0⟩
  let projection :=
    perspective (radians drawProps.fov)
      ((SCREEN_WIDTH : ℝ) / (SCREEN_HEIGHT : ℝ)) (1 / 10) 100
  let (gl1, modelCalls) := drawModel drawProps projection camera activeModel s.gl
  let (gl2, skyboxCalls) :=
    if drawProps.skyboxEnabled then drawSkybox projection camera s.skybox gl1
    else (gl1, [])
  let close2 := close || inp.closeRequested
  ({ s with camera := camera, gl := gl2, shouldClose := close2 },
    modelCalls ++ skyboxCalls)

/-- App::run: iterate the loop body while the window close flag is unset,
consuming per-iteration inputs. Returns the final state and the list of
per-iteration draw-call traces (one entry per executed iteration). -/
noncomputable def appRun (inputs : List FrameInput) (s : AppState) :
    AppState × List (List DrawCall) :=
  match inputs with
  | [] => (s, [])
  | inp :: rest =>
    if s.shouldClose then (s, [])
    else
      let (s1, calls) := appFrame inp s
      let (sf, traces) := appRun rest s1
      (sf, calls :: traces)

/-- A frame input closes the window during its iteration exactly when
Escape is pressed or an explicit close request arrives. -/
def closingInput (inp : FrameInput) : Bool :=
  inp.keys.escape || inp.closeRequested

/-! ## Concrete instances used to exercise the theorems -/

def vec3Zero : Vec3 := ⟨0, 0, 0⟩

def mat3Zero : Mat3 := ⟨0, 0, 0, 0, 0, 0, 0, 0, 0⟩

def mat4Zero : Mat4 := ⟨0, 0, 0, 0, 0, 0, 0, 0, 0, 0, 0, 0, 0, 0, 0, 0⟩

noncomputable def camera0 : Camera := ⟨⟨17 / 10, 13 / 10, 4⟩, 240, -15⟩

def model0 : Model := ⟨1, 36⟩

def model1 : Model := ⟨2, 9000⟩

def skybox0 : Skybox := ⟨3, 4⟩

def glState0 : GLState where
  depthFunc := DepthFunc.less
  polygonMode := PolygonMode.fill
  boundVertexArray := 0
  activeProgram := none
  boundCubemapTexture := 0
  modelUniforms :=
    { model := mat4Zero, mvp := mat4Zero, normalMatrix := mat3Zero
      color := vec3Zero, lightDirection := vec3Zero, viewPos := vec3Zero
      fragmentSubroutines := [] }
  skyboxUniforms := { projectionView := mat4Zero, skyboxTexture := 0 }

def props0 : DrawProperties where
  backgroundColor := vec3Zero
  modelColor := ⟨1, 1, 1⟩
  modelRotation := vec3Zero
  fov := 60
  lightDirection := ⟨-1, -1, -1⟩
  diffuseEnabled := true
  specularEnabled := true
  wireframeModeEnabled := false
  skyboxEnabled := true
  selectedModelIndex := 0

def propsY90 : DrawProperties :=
  { props0 with modelRotation := ⟨0, 90, 0⟩ }

def propsIdx1 : DrawProperties :=
  { props0 with selectedModelIndex := 1 }

def keysNone : KeysPressed := ⟨false, false, false, false, false, false, false⟩

def keysEscape : KeysPressed := ⟨true, false, false, false, false, false, false⟩

def frameInputQuiet : FrameInput := ⟨keysNone, props0, false⟩

def frameInputEscape : FrameInput := ⟨keysEscape, props0, false⟩

def frameInputIdx1 : FrameInput := ⟨keysNone, propsIdx1, false⟩

noncomputable def appState0 : AppState where
  camera := camera0
  models := [model0, model1]
  skybox := skybox0
  gl := glState0
  shouldClose := false

def envOk : InitEnv where
  glfwInitOk := true
  createWindowOk := true
  gladLoadOk := true
  skyboxBuild := some skybox0
  modelLoad := fun _ => some model0

def envNoWindow : InitEnv :=
  { envOk with createWindowOk := false }

noncomputable def callbackData0 : WindowCallbackData :=
  ⟨camera0, ⟨(SCREEN_WIDTH : ℝ) / 2, (SCREEN_HEIGHT : ℝ) / 2⟩⟩

def mousePos0 : Vec2 := ⟨600, 300⟩

/-- The standard axis-aligned rotation matrix for 90 degrees about the
Y axis: it maps x to -z and z to x. -/
def yRotation90 : Mat4 :=
  ⟨0, 0, 1, 0,
   0, 1, 0, 0,
   -1, 0, 0, 0,
   0, 0, 0, 1⟩

/-! # Theorems -/

theorem drainLag_lt_and_nonneg (lag : ℚ) :
    drainLag lag < FIXED_UPDATE_TIMESTEP ∧ (0 ≤ lag → 0 ≤ drainLag lag) := by
  induction lag using drainLag.induct with
  | case1 lag h ih =>
    rw [drainLag, if_pos h]
    refine ⟨ih.1, fun _ => ih.2 ?_⟩
    have hts : (0 : ℚ) < FIXED_UPDATE_TIMESTEP := by
      norm_num [FIXED_UPDATE_TIMESTEP, MAX_LOGIC_UPDATE_PER_SECOND]
    linarith
  | case2 lag h =>
    rw [drainLag, if_neg h]
    exact ⟨lt_of_not_le h, fun h0 => h0⟩

/-- C1: in each iteration of the main loop, after the drain step, the
accumulator satisfies 0 ≤ lag < FIXED_UPDATE_TIMESTEP, for every sequence
of non-negative elapsed wall-time increments (hence in particular after
every prefix of a longer run, each prefix being itself such a sequence). -/
theorem accumulator_drained_below_timestep (elapsedTimes : List ℚ)
    (hnonneg : ∀ e ∈ elapsedTimes, 0 ≤ e) (hne : elapsedTimes ≠ []) :
    0 ≤ runLoopLag elapsedTimes ∧ runLoopLag elapsedTimes < FIXED_UPDATE_TIMESTEP := by
  have key : ∀ (ts : List ℚ) (lag : ℚ), (∀ e ∈ ts, 0 ≤ e) → 0 ≤ lag →
      0 ≤ ts.foldl loopLag lag ∧
        (ts ≠ [] → ts.foldl loopLag lag < FIXED_UPDATE_TIMESTEP) := by
    intro ts
    induction ts with
    | nil => intro lag _ hlag; exact ⟨hlag, fun h => absurd rfl h⟩
    | cons e rest ih =>
      intro lag hts hlag
      have he : 0 ≤ e := hts e (List.mem_cons_self e rest)
      have hsum : 0 ≤ lag + e := by linarith
      have hdrain := drainLag_lt_and_nonneg (lag + e)
      have hnext : 0 ≤ loopLag lag e := by
        simpa [loopLag] using hdrain.2 hsum
      have hrest : ∀ x ∈ rest, (0 : ℚ) ≤ x := fun x hx => hts x (List.mem_cons_of_mem e hx)
      rcases ih (loopLag lag e) hrest hnext with ⟨h1, h2⟩
      refine ⟨by simpa using h1, fun _ => ?_⟩
      by_cases hr : rest = []
      · subst hr
        simpa [loopLag] using hdrain.1
      · simpa using h2 hr
  rcases key elapsedTimes 0 hnonneg le_rfl with ⟨h1, h2⟩
  exact ⟨h1, h2 hne⟩

/-- Witness: the accumulator invariant at a concrete elapsed-time
sequence (one long frame of 0.1 s and one short frame of 1 ms). -/
theorem accumulator_drained_below_timestep_witness :
    (∀ e ∈ ([1/10, 1/1000] : List ℚ), 0 ≤ e) ∧ ([1/10, 1/1000] : List ℚ) ≠ [] ∧
      (0 ≤ runLoopLag [1/10, 1/1000] ∧ runLoopLag [1/10, 1/1000] < FIXED_UPDATE_TIMESTEP) := by
  refine ⟨?_, ?_, accumulator_drained_below_timestep [1/10, 1/1000] ?_ ?_⟩ <;> simp

/-- C6: during drawModel the polygon mode is line exactly when the
wireframe toggle is set (fill otherwise) for the one model draw call, it
is restored to fill before drawModel returns, and the toggle changes
nothing else: with the toggle flipped, the final GPU state is identical
and the recorded draw calls agree once the polygon mode field is
disregarded. -/
theorem wireframe_toggle_scoped_to_model_draw (props : DrawProperties)
    (projection : Mat4) (camera : Camera) (model : Model) (s : GLState) :
    (drawModel props projection camera model s).2.map DrawCall.mode =
      [if props.wireframeModeEnabled then PolygonMode.line else PolygonMode.fill] ∧
    (drawModel props projection camera model s).1.polygonMode = PolygonMode.fill ∧
    (drawModel { props with wireframeModeEnabled := true } projection camera model s).1 =
      (drawModel { props with wireframeModeEnabled := false } projection camera model s).1 ∧
    (drawModel { props with wireframeModeEnabled := true } projection camera model s).2.map
        (fun c => { c with mode := PolygonMode.fill }) =
      (drawModel { props with wireframeModeEnabled := false } projection camera model s).2.map
        (fun c => { c with mode := PolygonMode.fill }) := by
  refine ⟨?_, ?_, ?_, ?_⟩ <;> simp [drawModel]

/-- C7: drawSkybox issues exactly one indexed draw, of 36 indices, under
the less-or-equal depth function; it sets the strict less-than depth
function before returning, so whenever the depth function was the strict
default on entry, the state after drawSkybox equals the state before. -/
theorem skybox_depth_func_scoped (projection : Mat4) (camera : Camera)
    (skybox : Skybox) (s : GLState) :
    (drawSkybox projection camera skybox s).2.map DrawCall.depthFunc = [DepthFunc.lequal] ∧
    (drawSkybox projection camera skybox s).2.map DrawCall.indexCount = [36] ∧
    (drawSkybox projection camera skybox s).1.depthFunc = DepthFunc.less ∧
    (s.depthFunc = DepthFunc.less →
      (drawSkybox projection camera skybox s).1.depthFunc = s.depthFunc) := by
  refine ⟨?_, ?_, ?_, fun h => ?_⟩ <;> simp [drawSkybox, *]

/-- Witness for C7: at a concrete entry state whose depth function is the
strict default, the depth function after drawSkybox equals the one before. -/
theorem skybox_depth_func_scoped_witness :
    (drawSkybox mat4Zero camera0 skybox0 glState0).1.depthFunc = glState0.depthFunc :=
  (skybox_depth_func_scoped mat4Zero camera0 skybox0 glState0).2.2.2 rfl

/-- C10: a cursor event with the right mouse button released leaves the
camera unchanged and only records the cursor position as the new last
mouse position, invoking no look; with the button pressed, Camera::look
is invoked exactly once, with the x delta and the negated y delta since
the previous event. -/
theorem cursor_callback_mouselook_gating (rmb : Bool) (cur : Vec2)
    (d : WindowCallbackData) :
    (rmb = false →
      (mouseCursorCallback rmb cur d).1.camera = d.camera ∧
      (mouseCursorCallback rmb cur d).1.lastMousePos = cur ∧
      (mouseCursorCallback rmb cur d).2 = none) ∧
    (rmb = true →
      (mouseCursorCallback rmb cur d).2 =
        some (cur.x - d.lastMousePos.x, d.lastMousePos.y - cur.y) ∧
      (mouseCursorCallback rmb cur d).1.camera =
        d.camera.look (cur.x - d.lastMousePos.x) (d.lastMousePos.y - cur.y) ∧
      (mouseCursorCallback rmb cur d).1.lastMousePos = cur) := by
  cases rmb <;> simp [mouseCursorCallback]

/-- Witness for C10: concrete cursor events with the right button
released and pressed. -/
theorem cursor_callback_mouselook_gating_witness :
    ((mouseCursorCallback false mousePos0 callbackData0).1.camera = callbackData0.camera ∧
      (mouseCursorCallback false mousePos0 callbackData0).1.lastMousePos = mousePos0 ∧
      (mouseCursorCallback false mousePos0 callbackData0).2 = none) ∧
    ((mouseCursorCallback true mousePos0 callbackData0).2 =
        some (mousePos0.x - callbackData0.lastMousePos.x,
          callbackData0.lastMousePos.y - mousePos0.y) ∧
      (mouseCursorCallback true mousePos0 callbackData0).1.camera =
        callbackData0.camera.look (mousePos0.x - callbackData0.lastMousePos.x)
          (callbackData0.lastMousePos.y - mousePos0.y) ∧
      (mouseCursorCallback true mousePos0 callbackData0).1.lastMousePos = mousePos0) :=
  ⟨(cursor_callback_mouselook_gating false mousePos0 callbackData0).1 rfl,
   (cursor_callback_mouselook_gating true mousePos0 callbackData0).2 rfl⟩

theorem loadModels_failure_reported (env : InitEnv) (paths : List String) :
    (loadModels env paths).1 = none → (loadModels env paths).2 ≠ [] := by
  induction paths with
  | nil => simp [loadModels]
  | cons p rest ih =>
    intro h
    by_cases hp : (env.modelLoad p).isSome
    · rcases Option.isSome_iff_exists.mp hp with ⟨m, hm⟩
      rcases hrec : loadModels env rest with ⟨res, msgs⟩
      cases res with
      | none =>
        have : (loadModels env rest).2 ≠ [] := ih (by rw [hrec])
        simp only [loadModels, hm, hrec] at h ⊢
        simpa [hrec] using this
      | some ms =>
        simp [loadModels, hm, hrec] at h
    · have hm : env.modelLoad p = none := Option.not_isSome_iff_eq_none.mp hp
      simp [loadModels, hm]

/-- C8: the process exits with code 0 when every initialization step
succeeds, and when any step fails (windowing-system init, window
creation, GPU extension loading, skybox build, model asset load) the
exit code is non-zero, the main loop is never entered, and a
human-readable error message was reported. -/
theorem startup_failure_aborts (env : InitEnv) :
    ((appInit env).1.isSome → appMain env = (0, true)) ∧
    ((appInit env).1 = none →
      (appMain env).1 ≠ 0 ∧ (appMain env).2 = false ∧ (appInit env).2 ≠ []) := by
  constructor
  · intro h
    rcases Option.isSome_iff_exists.mp h with ⟨r, hr⟩
    simp [appMain, hr]
  · intro h
    refine ⟨by simp [appMain, h], by simp [appMain, h], ?_⟩
    by_cases h1 : env.glfwInitOk
    · by_cases h2 : env.createWindowOk
      · by_cases h3 : env.gladLoadOk
        · cases hsky : env.skyboxBuild with
          | none => simp [appInit, h1, h2, h3, hsky]
          | some sky =>
            rcases hload : loadModels env modelPaths with ⟨res, msgs⟩
            cases res with
            | none =>
              have hmsgs : (loadModels env modelPaths).2 ≠ [] :=
                loadModels_failure_reported env modelPaths (by rw [hload])
              simp only [appInit, h1, h2, h3, hsky, hload] at h ⊢
              simpa [hload] using hmsgs
            | some ms => simp [appInit, h1, h2, h3, hsky, hload] at h
        · simp [appInit, h1, h2, h3]
      · simp [appInit, h1, h2]
    · simp [appInit, h1]

/-- Witness for C8: a fully successful environment exits 0 having entered
the main loop; an environment whose window creation fails exits non-zero,
never enters the loop, and reports a message. -/
theorem startup_failure_aborts_witness :
    appMain envOk = (0, true) ∧
    ((appMain envNoWindow).1 ≠ 0 ∧ (appMain envNoWindow).2 = false ∧
      (appInit envNoWindow).2 ≠ []) :=
  ⟨(startup_failure_aborts envOk).1 (by simp [appInit, envOk, loadModels, modelPaths]),
   (startup_failure_aborts envNoWindow).2 (by simp [appInit, envNoWindow, envOk])⟩

theorem appRun_of_shouldClose (inputs : List FrameInput) (s : AppState)
    (h : s.shouldClose = true) : appRun inputs s = (s, []) := by
  cases inputs with
  | nil => rfl
  | cons inp rest => simp [appRun, h]

theorem appFrame_shouldClose (inp : FrameInput) (s : AppState) :
    (appFrame inp s).1.shouldClose = (s.shouldClose || closingInput inp) := by
  simp [appFrame, handleInput, closingInput, Bool.or_assoc]

/-- C9: starting from an open window, the main loop executes one
iteration per input until (and including) the first input carrying an
Escape press or an explicit close request, and runs through the whole
input sequence when no input carries either; moreover the close flag is
set at exit exactly when some executed iteration saw Escape or a close
request. -/
theorem loop_terminates_only_on_close (inputs : List FrameInput) (s : AppState)
    (hflag : s.shouldClose = false) :
    (appRun inputs s).2.length =
      (if inputs.any closingInput then
        (inputs.takeWhile (fun i => !closingInput i)).length + 1
      else inputs.length) ∧
    (appRun inputs s).1.shouldClose = inputs.any closingInput := by
  induction inputs generalizing s with
  | nil => simp [appRun, hflag]
  | cons inp rest ih =>
    have hstep : (appFrame inp s).1.shouldClose = closingInput inp := by
      rw [appFrame_shouldClose, hflag, Bool.false_or]
    by_cases hc : closingInput inp = true
    · have hclosed : (appFrame inp s).1.shouldClose = true := by rw [hstep, hc]
      have hrest := appRun_of_shouldClose rest (appFrame inp s).1 hclosed
      constructor
      · simp [appRun, hflag, hrest, List.any_cons, hc, List.takeWhile]
      · simp [appRun, hflag, hrest, List.any_cons, hc, hclosed]
    · have hopen : (appFrame inp s).1.shouldClose = false := by
        rw [hstep]; exact Bool.not_eq_true _ |>.mp hc
      rcases ih (appFrame inp s).1 hopen with ⟨ihlen, ihflag⟩
      constructor
      · by_cases hr : rest.any closingInput = true
        · simp [appRun, hflag, List.any_cons, hc, hr, List.takeWhile, ihlen]
        · have hr2 : rest.any closingInput = false := Bool.not_eq_true _ |>.mp hr
          simp [appRun, hflag, List.any_cons, hc, hr2, ihlen]
      · simp [appRun, hflag, List.any_cons, hc, ihflag]

/-- Witness for C9: a concrete run over three inputs where the second
presses Escape executes exactly two iterations and exits closed. -/
theorem loop_terminates_only_on_close_witness :
    (appRun [frameInputQuiet, frameInputEscape, frameInputQuiet] appState0).2.length =
      (if [frameInputQuiet, frameInputEscape, frameInputQuiet].any closingInput then
        ([frameInputQuiet, frameInputEscape,
          frameInputQuiet].takeWhile (fun i => !closingInput i)).length + 1
      else [frameInputQuiet, frameInputEscape, frameInputQuiet].length) ∧
    (appRun [frameInputQuiet, frameInputEscape, frameInputQuiet] appState0).1.shouldClose =
      [frameInputQuiet, frameInputEscape, frameInputQuiet].any closingInput :=
  loop_terminates_only_on_close [frameInputQuiet, frameInputEscape, frameInputQuiet]
    appState0 rfl

theorem appRun_models_const (inputs : List FrameInput) (s : AppState) :
    (appRun inputs s).1.models = s.models := by
  induction inputs generalizing s with
  | nil => rfl
  | cons inp rest ih =>
    by_cases h : s.shouldClose = true
    · simp [appRun, h]
    · have h2 : s.shouldClose = false := Bool.not_eq_true _ |>.mp h
      have hframe : (appFrame inp s).1.models = s.models := by
        simp [appFrame]
      simp [appRun, h2, ih, hframe]

/-- C4: whenever a frame is rendered with selectedModelIndex equal to a
valid index i of the loaded model collection, the geometry submitted to
that frame's model-shader draw call (vertex array and index count) is
exactly that of the i-th model, and the model collection is left
unchanged by any run of the main loop. -/
theorem selected_model_drawn (inp : FrameInput) (s : AppState)
    (h : inp.guiProps.selectedModelIndex < s.models.length) :
    ((appFrame inp s).2.filter
        (fun c => c.program = some ShaderId.modelShader)).map
        (fun c => (c.vertexArray, c.indexCount)) =
      [((s.models[inp.guiProps.selectedModelIndex]).vertexArray,
        (s.models[inp.guiProps.selectedModelIndex]).indexCount)] ∧
    ∀ (inputs : List FrameInput) (s0 : AppState),
      (appRun inputs s0).1.models = s0.models := by
  refine ⟨?_, fun inputs s0 => appRun_models_const inputs s0⟩
  have hget : s.models.getD inp.guiProps.selectedModelIndex ⟨0, 0⟩ =
      s.models[inp.guiProps.selectedModelIndex] := List.getD_eq_getElem _ _ h
  by_cases hsky : inp.guiProps.skyboxEnabled
  · simp [appFrame, drawModel, drawSkybox, hsky, hget, List.getElem?_eq_getElem h]
  · simp [appFrame, drawModel, hsky, hget, List.getElem?_eq_getElem h]

/-- Witness for C4: with two loaded models and index 1 selected, the
frame's model draw call submits exactly the second model's geometry. -/
theorem selected_model_drawn_witness :
    propsIdx1.selectedModelIndex < appState0.models.length ∧
    ((appFrame frameInputIdx1 appState0).2.filter
        (fun c => c.program = some ShaderId.modelShader)).map
        (fun c => (c.vertexArray, c.indexCount)) =
      [(model1.vertexArray, model1.indexCount)] := by
  refine ⟨by decide, ?_⟩
  exact (selected_model_drawn frameInputIdx1 appState0 (by decide)).1

theorem vec3_add_sub_cancel (a b : Vec3) : (a.add b).sub a = b := by
  cases b with
  | mk x y z => simp [Vec3.add, Vec3.sub]

theorem lookAt_toMat3_translation_independent (e1 e2 front up : Vec3) :
    (lookAt e1 (e1.add front) up).toMat3 = (lookAt e2 (e2.add front) up).toMat3 := by
  simp [lookAt, Mat4.toMat3, vec3_add_sub_cancel]

theorem calculateViewMatrix_toMat3_position_independent (p1 p2 : Vec3)
    (yaw pitch : ℝ) :
    (Camera.calculateViewMatrix ⟨p1, yaw, pitch⟩).toMat3 =
      (Camera.calculateViewMatrix ⟨p2, yaw, pitch⟩).toMat3 :=
  lookAt_toMat3_translation_independent p1 p2
    (Camera.front ⟨p2, yaw, pitch⟩) (Camera.up ⟨p2, yaw, pitch⟩)

/-- C3: the u_projectionView matrix uploaded by drawSkybox does not
depend on the camera position: two camera states with the same yaw and
pitch but different positions, under the same projection, upload
identical projection-view matrices, because only the upper 3x3 rotation
block of the view matrix is kept. -/
theorem skybox_projection_view_position_independent (projection : Mat4)
    (p1 p2 : Vec3) (yaw pitch : ℝ) (skybox : Skybox) (s : GLState) :
    (drawSkybox projection ⟨p1, yaw, pitch⟩ skybox s).1.skyboxUniforms.projectionView =
      (drawSkybox projection ⟨p2, yaw, pitch⟩ skybox s).1.skyboxUniforms.projectionView := by
  have h := calculateViewMatrix_toMat3_position_independent p1 p2 yaw pitch
  simp only [drawSkybox]
  rw [h]

theorem modelQuat_y90 :
    modelQuat ⟨0, 90, 0⟩ = ⟨Real.sqrt 2 / 2, 0, Real.sqrt 2 / 2, 0⟩ := by
  have h0 : radians 0 = 0 := by simp [radians]
  have h90 : radians 90 / 2 = Real.pi / 4 := by
    simp only [radians]
    ring
  simp [modelQuat, angleAxis, Quat.mul, h0, h90, Real.cos_pi_div_four,
    Real.sin_pi_div_four]

theorem modelTransform_y90 : modelTransform ⟨0, 90, 0⟩ = yRotation90 := by
  rw [modelTransform, mat4_cast, modelQuat_y90]
  have hs : Real.sqrt 2 / 2 * (Real.sqrt 2 / 2) = 1 / 2 := by
    rw [div_mul_div_comm, Real.mul_self_sqrt (by norm_num : (0 : ℝ) ≤ 2)]
    norm_num
  simp [mat3_cast, Mat3.toMat4, yRotation90, hs]

/-- C2: the model transform uploaded by drawModel is the rotation matrix
of the quaternion product quatZ * quatY * quatX of the per-axis angle-
axis quaternions of DrawProperties.modelRotation; at the input of 90
degrees about Y only, it is the standard axis-aligned 90-degree Y
rotation matrix. -/
theorem model_transform_quaternion_composition (props : DrawProperties)
    (projection : Mat4) (camera : Camera) (model : Model) (s : GLState) :
    (drawModel props projection camera model s).1.modelUniforms.model =
      mat4_cast (((angleAxis (radians props.modelRotation.z) ⟨0, 0, 1⟩).mul
        (angleAxis (radians props.modelRotation.y) ⟨0, 1, 0⟩)).mul
        (angleAxis (radians props.modelRotation.x) ⟨1, 0, 0⟩)) ∧
    (props.modelRotation = ⟨0, 90, 0⟩ →
      (drawModel props projection camera model s).1.modelUniforms.model = yRotation90) := by
  constructor
  · rfl
  · intro h
    show modelTransform props.modelRotation = yRotation90
    rw [h, modelTransform_y90]

/-- Witness for C2: a draw with model rotation (0, 90, 0) uploads the
standard 90-degree Y rotation matrix as the model transform. -/
theorem model_transform_quaternion_composition_witness :
    (drawModel propsY90 mat4Zero camera0 model0 glState0).1.modelUniforms.model =
      yRotation90 :=
  (model_transform_quaternion_composition propsY90 mat4Zero camera0 model0
    glState0).2 rfl

theorem look_pitch_mem (c : Camera) (x y : ℝ) :
    -CAMERA_PITCH_LIMIT ≤ (c.look x y).pitch ∧
      (c.look x y).pitch ≤ CAMERA_PITCH_LIMIT := by
  simp only [Camera.look]
  exact ⟨le_min (by norm_num [CAMERA_PITCH_LIMIT]) (le_max_left _ _), min_le_left _ _⟩

theorem applyLooks_pitch_mem (l : List (ℝ × ℝ)) (c : Camera)
    (h1 : -CAMERA_PITCH_LIMIT ≤ c.pitch) (h2 : c.pitch ≤ CAMERA_PITCH_LIMIT) :
    -CAMERA_PITCH_LIMIT ≤ (applyLooks c l).pitch ∧
      (applyLooks c l).pitch ≤ CAMERA_PITCH_LIMIT := by
  induction l generalizing c with
  | nil => exact ⟨h1, h2⟩
  | cons o rest ih =>
    have hm := look_pitch_mem c o.1 o.2
    simpa only [applyLooks, List.foldl_cons] using
      ih (c.look o.1 o.2) hm.1 hm.2

theorem cos_radians_pos (p : ℝ) (h1 : -CAMERA_PITCH_LIMIT ≤ p)
    (h2 : p ≤ CAMERA_PITCH_LIMIT) : 0 < Real.cos (radians p) := by
  have hl : (-89 : ℝ) ≤ p := by simpa [CAMERA_PITCH_LIMIT] using h1
  have hh : p ≤ (89 : ℝ) := by simpa [CAMERA_PITCH_LIMIT] using h2
  have hpi := Real.pi_pos
  have ha : (0 : ℝ) < 90 + p := by linarith
  have hb : (0 : ℝ) < 90 - p := by linarith
  have hlow : -(Real.pi / 2) < p * (Real.pi / 180) := by
    nlinarith [mul_pos hpi ha]
  have hhigh : p * (Real.pi / 180) < Real.pi / 2 := by
    nlinarith [mul_pos hpi hb]
  exact Real.cos_pos_of_mem_Ioo (Set.mem_Ioo.mpr ⟨by simpa [radians] using hlow,
    by simpa [radians] using hhigh⟩)

theorem normalize_of_dot_one (v : Vec3) (h : v.dot v = 1) : v.normalize = v := by
  cases v with
  | mk x y z =>
    simp only [Vec3.normalize, h, Real.sqrt_one]
    simp [Vec3.smul]

theorem front_eq (c : Camera) :
    c.front = ⟨Real.cos (radians c.yaw) * Real.cos (radians c.pitch),
      Real.sin (radians c.pitch),
      Real.sin (radians c.yaw) * Real.cos (radians c.pitch)⟩ := by
  apply normalize_of_dot_one
  have hyw := Real.sin_sq_add_cos_sq (radians c.yaw)
  have hp := Real.sin_sq_add_cos_sq (radians c.pitch)
  simp only [Vec3.dot]
  linear_combination (Real.cos (radians c.pitch)) ^ 2 * hyw + hp

theorem right_eq (c : Camera) (h1 : -CAMERA_PITCH_LIMIT ≤ c.pitch)
    (h2 : c.pitch ≤ CAMERA_PITCH_LIMIT) :
    c.right = ⟨-Real.sin (radians c.yaw), 0, Real.cos (radians c.yaw)⟩ := by
  have hcos := cos_radians_pos c.pitch h1 h2
  have hyw := Real.sin_sq_add_cos_sq (radians c.yaw)
  rw [Camera.right, front_eq c]
  have hcross : (Vec3.cross
      ⟨Real.cos (radians c.yaw) * Real.cos (radians c.pitch),
        Real.sin (radians c.pitch),
        Real.sin (radians c.yaw) * Real.cos (radians c.pitch)⟩ WORLD_UP) =
      ⟨-(Real.sin (radians c.yaw) * Real.cos (radians c.pitch)), 0,
        Real.cos (radians c.yaw) * Real.cos (radians c.pitch)⟩ := by
    simp [Vec3.cross, WORLD_UP]
  rw [hcross]
  have hdot : (Vec3.dot
      ⟨-(Real.sin (radians c.yaw) * Real.cos (radians c.pitch)), 0,
        Real.cos (radians c.yaw) * Real.cos (radians c.pitch)⟩
      ⟨-(Real.sin (radians c.yaw) * Real.cos (radians c.pitch)), 0,
        Real.cos (radians c.yaw) * Real.cos (radians c.pitch)⟩) =
      Real.cos (radians c.pitch) ^ 2 := by
    simp only [Vec3.dot]
    linear_combination (Real.cos (radians c.pitch)) ^ 2 * hyw
  rw [Vec3.normalize, hdot, Real.sqrt_sq hcos.le]
  simp only [Vec3.smul]
  have hne : Real.cos (radians c.pitch) ≠ 0 := ne_of_gt hcos
  congr 1 <;> field_simp

theorem up_eq (c : Camera) (h1 : -CAMERA_PITCH_LIMIT ≤ c.pitch)
    (h2 : c.pitch ≤ CAMERA_PITCH_LIMIT) :
    c.up = ⟨-(Real.cos (radians c.yaw) * Real.sin (radians c.pitch)),
      Real.cos (radians c.pitch),
      -(Real.sin (radians c.yaw) * Real.sin (radians c.pitch))⟩ := by
  have hyw := Real.sin_sq_add_cos_sq (radians c.yaw)
  have hp := Real.sin_sq_add_cos_sq (radians c.pitch)
  rw [Camera.up, right_eq c h1 h2, front_eq c]
  have hcross : (Vec3.cross ⟨-Real.sin (radians c.yaw), 0, Real.cos (radians c.yaw)⟩
      ⟨Real.cos (radians c.yaw) * Real.cos (radians c.pitch),
        Real.sin (radians c.pitch),
        Real.sin (radians c.yaw) * Real.cos (radians c.pitch)⟩) =
      ⟨-(Real.cos (radians c.yaw) * Real.sin (radians c.pitch)),
        Real.cos (radians c.pitch),
        -(Real.sin (radians c.yaw) * Real.sin (radians c.pitch))⟩ := by
    simp only [Vec3.cross, Vec3.mk.injEq]
    refine ⟨by ring, ?_, by ring⟩
    linear_combination (Real.cos (radians c.pitch)) * hyw
  rw [hcross]
  apply normalize_of_dot_one
  simp only [Vec3.dot]
  linear_combination (Real.sin (radians c.pitch)) ^ 2 * hyw + hp

theorem camera_basis_orthonormal (c : Camera)
    (h1 : -CAMERA_PITCH_LIMIT ≤ c.pitch) (h2 : c.pitch ≤ CAMERA_PITCH_LIMIT) :
    c.front.dot c.front = 1 ∧ c.right.dot c.right = 1 ∧ c.up.dot c.up = 1 ∧
    c.front.dot c.right = 0 ∧ c.front.dot c.up = 0 ∧ c.right.dot c.up = 0 := by
  have hyw := Real.sin_sq_add_cos_sq (radians c.yaw)
  have hp := Real.sin_sq_add_cos_sq (radians c.pitch)
  rw [front_eq c, right_eq c h1 h2, up_eq c h1 h2]
  simp only [Vec3.dot]
  refine ⟨?_, ?_, ?_, ?_, ?_, ?_⟩
  · linear_combination (Real.cos (radians c.pitch)) ^ 2 * hyw + hp
  · linear_combination hyw
  · linear_combination (Real.sin (radians c.pitch)) ^ 2 * hyw + hp
  · ring
  · linear_combination (-(Real.cos (radians c.pitch) * Real.sin (radians c.pitch))) * hyw
  · ring

/-- C5: after any non-empty sequence of look calls, the camera pitch lies
strictly inside (-90, 90) degrees and the derived front, right and up
vectors are unit length and pairwise orthogonal. -/
theorem camera_look_invariants (c : Camera) (offsets : List (ℝ × ℝ))
    (hne : offsets ≠ []) :
    -90 < (applyLooks c offsets).pitch ∧ (applyLooks c offsets).pitch < 90 ∧
    (applyLooks c offsets).front.dot (applyLooks c offsets).front = 1 ∧
    (applyLooks c offsets).right.dot (applyLooks c offsets).right = 1 ∧
    (applyLooks c offsets).up.dot (applyLooks c offsets).up = 1 ∧
    (applyLooks c offsets).front.dot (applyLooks c offsets).right = 0 ∧
    (applyLooks c offsets).front.dot (applyLooks c offsets).up = 0 ∧
    (applyLooks c offsets).right.dot (applyLooks c offsets).up = 0 := by
  obtain ⟨o, rest, rfl⟩ := List.exists_cons_of_ne_nil hne
  have hm := look_pitch_mem c o.1 o.2
  have hstep : applyLooks c (o :: rest) = applyLooks (c.look o.1 o.2) rest := by
    simp [applyLooks]
  rw [hstep]
  have hb := applyLooks_pitch_mem rest (c.look o.1 o.2) hm.1 hm.2
  have horth := camera_basis_orthonormal (applyLooks (c.look o.1 o.2) rest) hb.1 hb.2
  have hlim : CAMERA_PITCH_LIMIT = (89 : ℝ) := rfl
  refine ⟨?_, ?_, horth.1, horth.2.1, horth.2.2.1, horth.2.2.2.1,
    horth.2.2.2.2.1, horth.2.2.2.2.2⟩
  · have := hb.1
    rw [hlim] at this
    linarith
  · have := hb.2
    rw [hlim] at this
    linarith

/-- Witness for C5: the camera invariants after a single concrete look
call from the application's initial pose. -/
theorem camera_look_invariants_witness :
    ([((3 : ℝ), (4 : ℝ))] : List (ℝ × ℝ)) ≠ [] ∧
    (-90 < (applyLooks camera0 [(3, 4)]).pitch ∧
      (applyLooks camera0 [(3, 4)]).pitch < 90 ∧
      (applyLooks camera0 [(3, 4)]).front.dot (applyLooks camera0 [(3, 4)]).front = 1 ∧
      (applyLooks camera0 [(3, 4)]).right.dot (applyLooks camera0 [(3, 4)]).right = 1 ∧
      (applyLooks camera0 [(3, 4)]).up.dot (applyLooks camera0 [(3, 4)]).up = 1 ∧
      (applyLooks camera0 [(3, 4)]).front.dot (applyLooks camera0 [(3, 4)]).right = 0 ∧
      (applyLooks camera0 [(3, 4)]).front.dot (applyLooks camera0 [(3, 4)]).up = 0 ∧
      (applyLooks camera0 [(3, 4)]).right.dot (applyLooks camera0 [(3, 4)]).up = 0) :=
  ⟨by simp, camera_look_invariants camera0 [(3, 4)] (by simp)⟩

end Renderer3D
